import Mathlib

/-!
Verification of the STRIDE-GPT GitHub Action core pipeline: a shallow
embedding of `src/stride_client.py`, `src/analyzer.py`, `src/reporter.py`
and `entrypoint.py`, together with theorems settling the specification
claims about status-code mapping, retry behaviour, orchestrator error
recovery, markdown rendering and command parsing.

Python strings are modelled as Lean `String` (ASCII case mapping via
`Char.toLower`/`Char.toUpper`, matching `str.lower`/`str.upper` on the
ASCII inputs involved), dictionaries with optional keys as structures of
`Option` fields, and raised exceptions as an inductive `PyExn` mirroring
the exception classes of `stride_client.py`.
-/

namespace StrideAction

/-- Python `pat in s` substring test, on the character lists of strings. -/
def containsSeq (pat : List Char) : List Char → Bool
  | [] => pat.isPrefixOf ([])
  | c :: rest => pat.isPrefixOf (c :: rest) || containsSeq pat rest

/-- Python `s.lower()` (ASCII). -/
def pyLower (s : String) : String := String.mk (s.data.map Char.toLower)

/-- Python `s.upper()` (ASCII). -/
def pyUpper (s : String) : String := String.mk (s.data.map Char.toUpper)

/-- Python `sub in s` on strings. -/
def strContains (s sub : String) : Bool := containsSeq sub.data s.data

/-- Python `s.startswith(pre)`. -/
def strStartsWith (s pre : String) : Bool := pre.data.isPrefixOf s.data

/-- A threat record from the remote API: a loosely-typed JSON object, any
field may be absent (`src/reporter.py` accesses every field with
`.get(...)` defaults). -/
structure Threat where
  title : Option String
  category : Option String
  severity : Option String
  description : Option String
  file : Option String
  line : Option String
  deriving DecidableEq, Repr

/-- The `metadata` object of an analysis response / `usage_info` of an
`AnalysisResult` (`src/analyzer.py`, `src/reporter.py`): optional keys. -/
structure UsageInfo where
  limit_reached : Option Bool
  analyses_used : Option Nat
  analyses_limit : Option Nat
  plan : Option String
  deriving DecidableEq, Repr

/-- `usage_info = {}`. -/
def emptyUsageInfo : UsageInfo :=
  { limit_reached := none, analyses_used := none, analyses_limit := none, plan := none }

/-- The parsed JSON payload of a successful `/api/v1/analyze` response,
as consumed by `src/analyzer.py` (`result.get("threats", [])`,
`result.get("summary", {}).get("total", len(threats))`, etc.).
`summary_total` collapses the two-level access `summary.get("total")`:
`none` covers both a missing `summary` object and a missing `total` key. -/
structure ApiResponse where
  analysis_id : Option String
  threats : List Threat
  summary_total : Option Nat
  truncated : Option Bool
  upgrade_message : Option String
  limitation_notice : Option String
  metadata : Option UsageInfo
  deriving DecidableEq, Repr

/-- Exceptions of `src/stride_client.py` (class per constructor), plus the
transport-level `httpx` exceptions the client code lets escape and the
`tenacity.RetryError` produced by the `@retry` decorator after exhausting
its attempts (wrapping the last attempt's exception). -/
inductive PyExn where
  /-- `StrideAPIError` raised directly (the timeout branch). -/
  | strideAPIError (msg : String)
  /-- `PaymentRequiredError` (subclass of `StrideAPIError`). -/
  | paymentRequiredError (msg : String)
  /-- `ForbiddenError` (subclass of `StrideAPIError`). -/
  | forbiddenError (msg : String)
  /-- `RateLimitError` (subclass of `StrideAPIError`). -/
  | rateLimitError (msg : String)
  /-- `httpx.HTTPStatusError` from `response.raise_for_status()`. -/
  | httpStatusError (status : Nat)
  /-- An `httpx` transport error other than timeout (e.g. `ConnectError`);
  not caught by the `except httpx.TimeoutException` clause. -/
  | connectionError
  /-- `tenacity.RetryError` wrapping the final attempt's exception. -/
  | retryError (cause : PyExn)
  deriving DecidableEq, Repr

/-- The Python exception class of a raised `PyExn` value: what an
`except SomeClass:` clause can discriminate on. -/
inductive ExnClass where
  | strideAPIError
  | paymentRequiredError
  | forbiddenError
  | rateLimitError
  | httpStatusError
  | connectionError
  | retryError
  deriving DecidableEq, Repr

/-- Map an exception to its class. -/
def errClass : PyExn → ExnClass
  | PyExn.strideAPIError _ => ExnClass.strideAPIError
  | PyExn.paymentRequiredError _ => ExnClass.paymentRequiredError
  | PyExn.forbiddenError _ => ExnClass.forbiddenError
  | PyExn.rateLimitError _ => ExnClass.rateLimitError
  | PyExn.httpStatusError _ => ExnClass.httpStatusError
  | PyExn.connectionError => ExnClass.connectionError
  | PyExn.retryError _ => ExnClass.retryError

/-- Timeout message of `StrideClient.analyze`. -/
def timeoutMsg : String :=
  "Analysis request timed out. Large repositories may take longer to analyze. " ++
    "Consider using a smaller repository or contact support if this persists."

/-- 402 message when the body's `detail` mentions "private". -/
def privatePlanMsg : String :=
  "Private repositories require a paid STRIDE-GPT plan. " ++
    "Visit https://stridegpt.ai/pricing to upgrade."

/-- 402 message otherwise. -/
def monthlyLimitMsg : String := "Monthly limit reached. Please upgrade your plan."

/-- 403 fallback message. -/
def forbiddenDefaultMsg : String := "Invalid API key or insufficient permissions."

/-- 429 message. -/
def rateLimitMsg : String := "Rate limit exceeded. Please try again later."

/-- The outcome of one HTTP POST attempt inside `StrideClient.analyze`:
either a transport failure, or a received response with its status code,
the `detail` field of its JSON body (`none` when the body is absent or
unparseable, in which case the code substitutes `""` for 402 and the
default message for 403), and — for 2xx — the parsed payload. -/
inductive AttemptOutcome where
  | timeout
  | connectionFailure
  | response (status : Nat) (detail : Option String) (payload : ApiResponse)
  deriving DecidableEq, Repr

/-- One attempt of `StrideClient.analyze` (`src/stride_client.py` lines
28-74): catch `httpx.TimeoutException` into a `StrideAPIError`, map 402
(inspecting the body for the substring "private", case-insensitively),
403 and 429 to their exception classes, `raise_for_status()` any other
non-2xx, and return the parsed JSON on success. -/
def analyze_attempt (outcome : AttemptOutcome) : Except PyExn ApiResponse :=
  match outcome with
  | AttemptOutcome.timeout => Except.error (PyExn.strideAPIError timeoutMsg)
  | AttemptOutcome.connectionFailure => Except.error PyExn.connectionError
  | AttemptOutcome.response status detail payload =>
    if status = 402 then
      let error_message := detail.getD ("")
      if strContains (pyLower error_message) ("private") then
        Except.error (PyExn.paymentRequiredError privatePlanMsg)
      else
        Except.error (PyExn.paymentRequiredError monthlyLimitMsg)
    else if status = 403 then
      Except.error (PyExn.forbiddenError (detail.getD forbiddenDefaultMsg))
    else if status = 429 then
      Except.error (PyExn.rateLimitError rateLimitMsg)
    else if 200 ≤ status ∧ status ≤ 299 then
      Except.ok payload
    else
      Except.error (PyExn.httpStatusError status)

/-- The wait (seconds) computed by
`wait_exponential(multiplier=1, min=4, max=10)` after the
`attempt_number`-th failed attempt (tenacity clamps `1 * 2 ** n` into
`[4, 10]`). -/
def retryWait (attempt_number : Nat) : Nat := max 4 (min (1 * 2 ^ attempt_number) 10)

/-- `StrideClient.analyze` as decorated by
`@retry(stop=stop_after_attempt(3), wait=wait_exponential(multiplier=1, min=4, max=10))`:
tenacity's default retry predicate retries on ANY exception, and its
default `reraise=False` raises a `RetryError` wrapping the last attempt's
exception once the three attempts are exhausted. `outcomes i` is the
outcome of attempt `i`; the returned `Nat` is the number of attempts
performed. -/
def analyze (outcomes : Nat → AttemptOutcome) : Except PyExn ApiResponse × Nat :=
  match analyze_attempt (outcomes 0) with
  | Except.ok r => (Except.ok r, 1)
  | Except.error _ =>
    match analyze_attempt (outcomes 1) with
    | Except.ok r => (Except.ok r, 2)
    | Except.error _ =>
      match analyze_attempt (outcomes 2) with
      | Except.ok r => (Except.ok r, 3)
      | Except.error e => (Except.error (PyExn.retryError e), 3)

/-! ### `src/analyzer.py` -/

/-- The `AnalysisResult` dataclass of `src/analyzer.py`. -/
structure AnalysisResult where
  threat_count : Nat
  threats : List Threat
  analysis_id : String
  usage_info : UsageInfo
  is_limited : Bool
  upgrade_message : Option String
  limitation_notice : Option String
  deriving DecidableEq, Repr

/-- The `options` sub-dictionary of an analysis request. -/
structure RequestOptions where
  feature_description : String
  issue_number : Nat
  deriving DecidableEq, Repr

/-- The request dictionary built by the three `ActionAnalyzer` methods:
each method includes only some of the keys (`pr_number` only for PR
analysis, `analysis_type`/`options` only for the other two). -/
structure AnalysisRequest where
  repository : String
  github_token : String
  pr_number : Option Nat
  analysis_type : Option String
  options : Option RequestOptions
  deriving DecidableEq, Repr

/-- The state of the GitHub collaborator consulted by `ActionAnalyzer`:
repository visibility, the PR file list, the issue body and the
repository name/token used to build requests. -/
structure GitHubState where
  is_public_repo : Bool
  pr_files : List String
  issue_description : String
  repo_name : String
  token : String
  deriving DecidableEq, Repr

/-- URL normalization in all three `ActionAnalyzer` methods
(`src/analyzer.py` lines 57-59, 126-128, 186-188): a name not starting
with `https://` is prefixed with `https://github.com/`. -/
def normalize_repository_url (repo_name : String) : String :=
  if strStartsWith repo_name ("https://") then repo_name
  else ("https://github.com/") ++ repo_name

/-- Message of the `ForbiddenError` raised by the private-repository
pre-flight check in all three `ActionAnalyzer` methods. -/
def privateReposPreflightMsg : String :=
  "Private repositories require a paid STRIDE-GPT plan. " ++
    "Visit https://stridegpt.ai/pricing to upgrade."

/-- The zero-threat result returned when there is nothing to analyze. -/
def emptyAnalysisResult : AnalysisResult :=
  { threat_count := 0, threats := [], analysis_id := "", usage_info := emptyUsageInfo
  , is_limited := false, upgrade_message := none, limitation_notice := none }

/-- The sentinel returned by the `except PaymentRequiredError` handlers. -/
def limitSentinel : AnalysisResult :=
  { threat_count := 0, threats := [], analysis_id := ""
  , usage_info := { emptyUsageInfo with limit_reached := some true }
  , is_limited := true
  , upgrade_message := some ("Monthly analysis limit reached. Upgrade to continue analyzing.")
  , limitation_notice := none }

/-- Normalizing a successful API response into an `AnalysisResult`
(identical blocks in the three `ActionAnalyzer` methods):
`threat_count` from the summary total, defaulting to the threat list
length; `is_limited` from `truncated` (default `False`); id and metadata
with their defaults; upgrade/limitation messages passed through. -/
def processApiResult (result : ApiResponse) : AnalysisResult :=
  { threat_count := result.summary_total.getD result.threats.length
  , threats := result.threats
  , analysis_id := result.analysis_id.getD ("")
  , usage_info := result.metadata.getD emptyUsageInfo
  , is_limited := result.truncated.getD false
  , upgrade_message := result.upgrade_message
  , limitation_notice := result.limitation_notice }

/-- `ActionAnalyzer.analyze_pr` (`src/analyzer.py` lines 32-100), with
the Gateway call's outcome supplied as `gateway` and the list of
requests actually submitted to the Gateway returned alongside the
result. Private repository → raise `ForbiddenError` (before anything
else); empty file list → zero-threat result without a Gateway call;
otherwise build the request, submit it, and catch exactly
`PaymentRequiredError` into the limit sentinel. -/
def analyze_pr (gh : GitHubState) (pr_number : Nat)
    (gateway : Except PyExn ApiResponse) :
    Except PyExn AnalysisResult × List AnalysisRequest :=
  if gh.is_public_repo = false then
    (Except.error (PyExn.forbiddenError privateReposPreflightMsg), [])
  else if gh.pr_files.isEmpty then
    (Except.ok emptyAnalysisResult, [])
  else
    let req : AnalysisRequest :=
      { repository := normalize_repository_url gh.repo_name
      , github_token := gh.token
      , pr_number := some pr_number
      , analysis_type := none
      , options := none }
    match gateway with
    | Except.ok result => (Except.ok (processApiResult result), [req])
    | Except.error (PyExn.paymentRequiredError _) => (Except.ok limitSentinel, [req])
    | Except.error e => (Except.error e, [req])

/-- `ActionAnalyzer.analyze_feature_description` (`src/analyzer.py`
lines 102-173): the emptiness precondition is on the stripped issue
body. -/
def analyze_feature_description (gh : GitHubState) (issue_number : Nat)
    (gateway : Except PyExn ApiResponse) :
    Except PyExn AnalysisResult × List AnalysisRequest :=
  if gh.is_public_repo = false then
    (Except.error (PyExn.forbiddenError privateReposPreflightMsg), [])
  else if gh.issue_description.trim = "" then
    (Except.ok emptyAnalysisResult, [])
  else
    let req : AnalysisRequest :=
      { repository := normalize_repository_url gh.repo_name
      , github_token := gh.token
      , pr_number := none
      , analysis_type := some ("feature_description")
      , options := some { feature_description := gh.issue_description
                        , issue_number := issue_number } }
    match gateway with
    | Except.ok result => (Except.ok (processApiResult result), [req])
    | Except.error (PyExn.paymentRequiredError _) => (Except.ok limitSentinel, [req])
    | Except.error e => (Except.error e, [req])

/-- `ActionAnalyzer.analyze_repository` (`src/analyzer.py` lines
175-229): no precondition beyond the public-repository check. -/
def analyze_repository (gh : GitHubState)
    (gateway : Except PyExn ApiResponse) :
    Except PyExn AnalysisResult × List AnalysisRequest :=
  if gh.is_public_repo = false then
    (Except.error (PyExn.forbiddenError privateReposPreflightMsg), [])
  else
    let req : AnalysisRequest :=
      { repository := normalize_repository_url gh.repo_name
      , github_token := gh.token
      , pr_number := none
      , analysis_type := some ("full_repository")
      , options := none }
    match gateway with
    | Except.ok result => (Except.ok (processApiResult result), [req])
    | Except.error (PyExn.paymentRequiredError _) => (Except.ok limitSentinel, [req])
    | Except.error e => (Except.error e, [req])

/-! ### `src/reporter.py` -/

/-- `severity_order.get(s, 2)` with
`severity_order = {"critical": 0, "high": 1, "medium": 2, "low": 3, "info": 4}`
(`src/reporter.py` line 135): unknown keys default to 2. -/
def severity_order (s : String) : Nat :=
  if s = "critical" then 0
  else if s = "high" then 1
  else if s = "medium" then 2
  else if s = "low" then 3
  else if s = "info" then 4
  else 2

/-- `threat.get("severity", "medium").lower()`: the lower-cased severity
string used both as sort key and as tally key. -/
def severityKey (t : Threat) : String := pyLower (t.severity.getD ("medium"))

/-- The sort key of `sorted(result.threats, key=lambda t: ...)`
(`src/reporter.py` lines 148-151). -/
def rank (t : Threat) : Nat := severity_order (severityKey t)

/-- The ordering relation induced by the sort key. -/
def threatLE (a b : Threat) : Prop := rank a ≤ rank b

instance : DecidableRel threatLE := fun a b => Nat.decLe (rank a) (rank b)

instance : IsTotal Threat threatLE := ⟨fun a b => Nat.le_total (rank a) (rank b)⟩

instance : IsTrans Threat threatLE := ⟨fun _ _ _ h1 h2 => Nat.le_trans h1 h2⟩

/-- `sorted(result.threats, key=lambda t: severity_order.get(..., 2))`:
Python's `sorted` is a stable ascending sort by key, modelled by stable
insertion sort with the key-induced relation. -/
def sortThreats (l : List Threat) : List Threat := List.insertionSort threatLE l

/-- `severity_emoji.get(severity, "🟡")` (`src/reporter.py` lines
128-134, 175). -/
def severity_emoji (s : String) : String :=
  if s = "critical" then "🚨"
  else if s = "high" then "🔴"
  else if s = "medium" then "🟡"
  else if s = "low" then "🟢"
  else if s = "info" then "ℹ️"
  else "🟡"

/-- One step of the tally loop (`src/reporter.py` lines 155-157):
`severity_counts[severity] = severity_counts.get(severity, 0) + 1` on a
Python dict modelled as an insertion-ordered association list — an
existing key is incremented in place, a novel key is appended. -/
def bumpCount (counts : List (String × Nat)) (k : String) : List (String × Nat) :=
  if counts.any (fun p => p.fst = k) then
    counts.map (fun p => if p.fst = k then (p.fst, p.snd + 1) else p)
  else
    counts ++ [(k, 1)]

/-- The initial dict `{"critical": 0, "high": 0, "medium": 0, "low": 0, "info": 0}`. -/
def initCounts : List (String × Nat) :=
  [("critical", 0), ("high", 0), ("medium", 0), ("low", 0), ("info", 0)]

/-- The severity tally of `_format_threats_comment` (`src/reporter.py`
lines 154-157), iterating over the sorted threats. -/
def severity_counts (threats : List Threat) : List (String × Nat) :=
  (sortThreats threats).foldl (fun c t => bumpCount c (severityKey t)) initCounts

/-- `counts[k]` as read by the summary line: the value at the first
matching key (the five canonical keys are always present; for uniformity
a missing key reads 0). -/
def getCount (counts : List (String × Nat)) (k : String) : Nat :=
  match counts with
  | [] => 0
  | p :: rest => if p.fst = k then p.snd else getCount rest k

/-- The per-threat block of `_format_threats_comment` (`src/reporter.py`
lines 173-198): title line with severity marker, category line, optional
file/line info (omitted when the file is absent, empty — falsy — or
literally "Unknown"; the line part omitted when absent, empty or "?"),
description line, blank separator. Every field access has a literal
fallback. -/
def format_threat_block (t : Threat) : List String :=
  let severity := pyLower (t.severity.getD ("medium"))
  let emoji := severity_emoji severity
  let file_info_parts : List String :=
    match t.file with
    | none => []
    | some f =>
      if f ≠ "" ∧ f ≠ "Unknown" then
        let file_line := t.line.getD ("")
        if file_line ≠ "" ∧ file_line ≠ "?" then
          [("**File**: `") ++ f ++ (":") ++ file_line ++ ("`")]
        else
          [("**File**: `") ++ f ++ ("`")]
      else []
  [("#### ") ++ emoji ++ (" ") ++ pyUpper severity ++ (": ") ++ t.title.getD ("Unknown Threat"),
   ("**Category**: ") ++ t.category.getD ("Unknown")]
  ++ file_info_parts
  ++ [("**Description**: ") ++ t.description.getD ("No description provided"), ""]

/-- The threat-block section of the threat-listing document: the blocks
of the sorted threats, in order (`src/reporter.py` lines 172-198). -/
def threatBlocks (threats : List Threat) : List String :=
  ((sortThreats threats).map format_threat_block).flatten

/-- The severity summary line (`src/reporter.py` line 166). -/
def severityLevelsLine (threats : List Threat) : String :=
  let counts := severity_counts threats
  ("- **Severity Levels**: ") ++ toString (getCount counts ("critical")) ++
    (" Critical, ") ++ toString (getCount counts ("high")) ++
    (" High, ") ++ toString (getCount counts ("medium")) ++
    (" Medium, ") ++ toString (getCount counts ("low")) ++ (" Low")

/-- The three comment templates `post_analysis_comment` can choose. -/
inductive Template where
  | limitReached
  | noThreats
  | threatList
  deriving DecidableEq, Repr

/-- The template choice of `CommentReporter.post_analysis_comment`
(`src/reporter.py` lines 24-30): the limit-reached document when
`result.usage_info.get("limit_reached")` is truthy, else the no-threats
document iff `threat_count == 0`, else the threat-listing document. The
threats list itself is never consulted by this branch. -/
def post_analysis_comment_template (result : AnalysisResult) : Template :=
  if result.usage_info.limit_reached.getD false then Template.limitReached
  else if result.threat_count = 0 then Template.noThreats
  else Template.threatList

/-! ### `entrypoint.py` -/

/-- Python `\w` on the lowered (ASCII) body: alphanumeric or underscore. -/
def isWordChar (c : Char) : Bool := c.isAlphanum || c = '_'

/-- Python `\s` (ASCII): space, tab, newline, carriage return, vertical
tab, form feed. -/
def isSpaceChar (c : Char) : Bool :=
  c = ' ' || c = '\t' || c = '\n' || c = '\r' || c = '\x0b' || c = '\x0c'

/-- The trigger mention `@stride-gpt`, as a character list. -/
def mentionChars : List Char := ("@stride-gpt").data

/-- Attempt to match the regex `@stride-gpt\s+(\w+)` at the head of `l`:
the literal mention, then a (maximal) non-empty run of whitespace, then a
(maximal) non-empty run of word characters — the captured group. `\s` and
`\w` are disjoint, so the greedy run semantics of `re` are exactly
take-while. -/
def matchAt (l : List Char) : Option (List Char) :=
  if mentionChars.isPrefixOf l then
    if ((l.drop mentionChars.length).takeWhile isSpaceChar).isEmpty then none
    else
      if (((l.drop mentionChars.length).dropWhile isSpaceChar).takeWhile isWordChar).isEmpty
      then none
      else some (((l.drop mentionChars.length).dropWhile isSpaceChar).takeWhile isWordChar)
  else none

/-- `re.search(r"@stride-gpt\s+(\w+)", ...)`: try the pattern at each
position left to right and return the first captured group. -/
def searchTok : List Char → Option (List Char)
  | [] => none
  | c :: rest =>
    match matchAt (c :: rest) with
    | some tok => some tok
    | none => searchTok rest

/-- `parse_command` (`entrypoint.py` lines 284-297): search the
lower-cased body for `@stride-gpt\s+(\w+)` and return the captured token;
failing that, return `"analyze"` if the body contains the literal
(lower-case) `@stride-gpt`, else `None`. -/
def parse_command (comment_body : String) : Option String :=
  match searchTok (comment_body.data.map Char.toLower) with
  | some tok => some (String.mk tok)
  | none =>
    if containsSeq mentionChars comment_body.data then some ("analyze")
    else none

/-- Whether the body contains the mention when compared
case-insensitively — the reading of "contains the mention" under which
the pattern search of `parse_command` itself operates. -/
def containsMentionCI (comment_body : String) : Bool :=
  containsSeq mentionChars (comment_body.data.map Char.toLower)

/-- The occurrence predicate behind the regex `@stride-gpt\s+(\w+)`
capturing `tok`: some decomposition of the (lowered) body into a prefix,
the mention, a non-empty whitespace run, the non-empty word-character
token and a remainder. -/
def hasCmdPatternWith (l tok : List Char) : Prop :=
  ∃ pre ws post, l = pre ++ mentionChars ++ ws ++ tok ++ post ∧
    ws ≠ [] ∧ (∀ c ∈ ws, isSpaceChar c) ∧
    tok ≠ [] ∧ (∀ c ∈ tok, isWordChar c)

/-! ### Concrete fixtures used in witness and counterexample statements -/

/-- A minimal successful analysis payload. -/
def samplePayload : ApiResponse :=
  { analysis_id := some ("ana_test123"), threats := [], summary_total := none
  , truncated := none, upgrade_message := none, limitation_notice := none, metadata := none }

/-- A private repository, otherwise ready to analyze. -/
def ghPrivate : GitHubState :=
  { is_public_repo := false, pr_files := [("src/app.py")]
  , issue_description := "Add user authentication", repo_name := "test/repo", token := "ghp_test" }

/-- A public repository with a non-empty changed-file list and issue body. -/
def ghPublic : GitHubState :=
  { is_public_repo := true, pr_files := [("src/app.py")]
  , issue_description := "Add user authentication", repo_name := "test/repo", token := "ghp_test" }

/-- A threat with only the severity field set. -/
def mkThreatSev (sev : Option String) : Threat :=
  { title := none, category := none, severity := sev
  , description := none, file := none, line := none }

/-- An `AnalysisResult` whose authoritative count is zero while its threat
list is non-empty. -/
def resultCountZeroThreatsNonempty : AnalysisResult :=
  { threat_count := 0, threats := [mkThreatSev (some ("high"))], analysis_id := ""
  , usage_info := emptyUsageInfo, is_limited := false
  , upgrade_message := none, limitation_notice := none }

/-- An `AnalysisResult` whose authoritative count is positive while its
threat list is empty. -/
def resultCountFiveThreatsEmpty : AnalysisResult :=
  { threat_count := 5, threats := [], analysis_id := ""
  , usage_info := emptyUsageInfo, is_limited := false
  , upgrade_message := none, limitation_notice := none }

/-! ### Claim theorems -/

/-- C1 (corrected): the two 402 branches of `StrideClient.analyze` raise
the SAME exception class `PaymentRequiredError` — a 402 whose `detail`
contains "private" and a 402 without it differ only in message, so they
are not two distinguishable error kinds for the caller. -/
theorem payment402_single_class_counterexample :
    analyze_attempt (AttemptOutcome.response 402
        (some ("Private repository access requires a paid STRIDE-GPT plan")) samplePayload) =
      Except.error (PyExn.paymentRequiredError privatePlanMsg) ∧
    analyze_attempt (AttemptOutcome.response 402 (some ("limit")) samplePayload) =
      Except.error (PyExn.paymentRequiredError monthlyLimitMsg) ∧
    errClass (PyExn.paymentRequiredError privatePlanMsg) =
      errClass (PyExn.paymentRequiredError monthlyLimitMsg) :=
  ⟨rfl, rfl, rfl⟩

/-- C1 (amended): on a 402 response, `StrideClient.analyze` inspects the
body's `detail` field for the substring "private" (case-insensitively):
if present it raises `PaymentRequiredError` with the
private-repo-requires-paid-plan message, otherwise `PaymentRequiredError`
with the monthly-limit message — the same exception class in both cases,
distinguishable only by message. -/
theorem payment402_message_mapping :
    ∀ (d : Option String) (payload : ApiResponse),
      (strContains (pyLower (d.getD (""))) ("private") = true →
        analyze_attempt (AttemptOutcome.response 402 d payload) =
          Except.error (PyExn.paymentRequiredError privatePlanMsg)) ∧
      (strContains (pyLower (d.getD (""))) ("private") = false →
        analyze_attempt (AttemptOutcome.response 402 d payload) =
          Except.error (PyExn.paymentRequiredError monthlyLimitMsg)) ∧
      errClass (PyExn.paymentRequiredError privatePlanMsg) = ExnClass.paymentRequiredError ∧
      errClass (PyExn.paymentRequiredError monthlyLimitMsg) = ExnClass.paymentRequiredError := by
  intro d payload
  refine ⟨?_, ?_, rfl, rfl⟩ <;> intro h <;> simp [analyze_attempt, h]

/-- C1 witness: the amended mapping evaluated at the two body shapes of
the specification's example. -/
theorem payment402_message_mapping_witness :
    analyze_attempt (AttemptOutcome.response 402
        (some ("Private repository access requires a paid STRIDE-GPT plan")) samplePayload) =
      Except.error (PyExn.paymentRequiredError privatePlanMsg) ∧
    analyze_attempt (AttemptOutcome.response 402 (some ("limit")) samplePayload) =
      Except.error (PyExn.paymentRequiredError monthlyLimitMsg) :=
  ⟨(payment402_message_mapping
      (some ("Private repository access requires a paid STRIDE-GPT plan")) samplePayload).1
      (by decide),
   (payment402_message_mapping (some ("limit")) samplePayload).2.1 (by decide)⟩

/-- C3 (code bug): the `@retry` decorator on `StrideClient.analyze` has
no exception filter, so a successfully received HTTP 402 IS retried: with
every attempt receiving a 402 "limit" response, three POST attempts are
performed and a `tenacity.RetryError` wrapping the `PaymentRequiredError`
escapes — contradicting the repository's own test
`test_analyze_payment_required`, which expects `PaymentRequiredError`
directly. The backoff parameters themselves are as specified (waits of
4s after attempts 1 and 2). -/
theorem retry_402_not_transport_eval :
    analyze (fun _ => AttemptOutcome.response 402 (some ("limit")) samplePayload) =
      (Except.error (PyExn.retryError (PyExn.paymentRequiredError monthlyLimitMsg)), 3) ∧
    retryWait 1 = 4 ∧ retryWait 2 = 4 :=
  ⟨rfl, by decide, by decide⟩

/-- C4 (corrected): `analyze_pr` on a private repository short-circuits
before any Gateway call — but the error it raises is a `ForbiddenError`
(the claim's Forbidden kind), not the 402/PaymentRequired kind the
specification calls PlanRestriction. -/
theorem private_repo_forbidden_counterexample :
    (analyze_pr ghPrivate 42 (Except.ok samplePayload)).fst =
      Except.error (PyExn.forbiddenError privateReposPreflightMsg) ∧
    (analyze_pr ghPrivate 42 (Except.ok samplePayload)).snd = [] ∧
    errClass (PyExn.forbiddenError privateReposPreflightMsg) ≠ ExnClass.paymentRequiredError :=
  ⟨rfl, rfl, by decide⟩

/-- C4 (amended): for every PR analysis on a repository where
`is_public_repo()` returns false, `analyze_pr` raises a `ForbiddenError`
carrying the private-repositories-require-a-paid-plan message, the error
propagates to the caller uncaught, and no Gateway request is ever
built or submitted. -/
theorem private_repo_shortcircuit_amended :
    ∀ (gh : GitHubState) (pr_number : Nat) (gateway : Except PyExn ApiResponse),
      gh.is_public_repo = false →
        analyze_pr gh pr_number gateway =
          (Except.error (PyExn.forbiddenError privateReposPreflightMsg),
            ([] : List AnalysisRequest)) ∧
        errClass (PyExn.forbiddenError privateReposPreflightMsg) = ExnClass.forbiddenError := by
  intro gh pr_number gateway h
  exact ⟨by simp [analyze_pr, h], rfl⟩

/-- C4 witness: the amended short-circuit at a concrete private
repository. -/
theorem private_repo_shortcircuit_amended_witness :
    analyze_pr ghPrivate 7 (Except.ok samplePayload) =
      (Except.error (PyExn.forbiddenError privateReposPreflightMsg),
        ([] : List AnalysisRequest)) :=
  (private_repo_shortcircuit_amended ghPrivate 7 (Except.ok samplePayload) (by decide)).1

/-- C2 (corrected): the Gateway's 402-private error — what the
specification calls PlanRestriction — is raised as a
`PaymentRequiredError`, so `analyze_pr` catches it and returns the limit
sentinel instead of propagating it. -/
theorem plan_restriction_recovered_counterexample :
    analyze_attempt (AttemptOutcome.response 402
        (some ("Private repository access requires a paid STRIDE-GPT plan")) samplePayload) =
      Except.error (PyExn.paymentRequiredError privatePlanMsg) ∧
    (analyze_pr ghPublic 42 (Except.error (PyExn.paymentRequiredError privatePlanMsg))).fst =
      Except.ok limitSentinel :=
  ⟨rfl, rfl⟩

/-- C2 (amended): each of the three orchestrator operations catches
exactly the exception class `PaymentRequiredError` — which covers BOTH
402 cases, the usage-limit one and the private-repository one — and
returns the sentinel `AnalysisResult` (`threat_count = 0`, empty threats,
empty id, `usage_info = {limit_reached: true}`, `is_limited = true`,
fixed upgrade message); a Gateway error of any other class
(`ForbiddenError`, `RateLimitError`, plain `StrideAPIError` from a
timeout, `HTTPStatusError`, transport errors, `RetryError`) propagates
unchanged. -/
theorem orchestrator_payment_catch_amended :
    ∀ (gh : GitHubState) (n : Nat) (msg : String) (e : PyExn),
      gh.is_public_repo = true →
      (gh.pr_files.isEmpty = false →
        (analyze_pr gh n (Except.error (PyExn.paymentRequiredError msg))).fst =
          Except.ok limitSentinel ∧
        (errClass e ≠ ExnClass.paymentRequiredError →
          (analyze_pr gh n (Except.error e)).fst = Except.error e)) ∧
      (gh.issue_description.trim ≠ "" →
        (analyze_feature_description gh n
            (Except.error (PyExn.paymentRequiredError msg))).fst = Except.ok limitSentinel ∧
        (errClass e ≠ ExnClass.paymentRequiredError →
          (analyze_feature_description gh n (Except.error e)).fst = Except.error e)) ∧
      ((analyze_repository gh (Except.error (PyExn.paymentRequiredError msg))).fst =
          Except.ok limitSentinel ∧
        (errClass e ≠ ExnClass.paymentRequiredError →
          (analyze_repository gh (Except.error e)).fst = Except.error e)) := by
  intro gh n msg e hpub
  refine ⟨fun hfiles => ⟨?_, fun hcls => ?_⟩, fun hdesc => ⟨?_, fun hcls => ?_⟩,
    ⟨?_, fun hcls => ?_⟩⟩
  · simp [analyze_pr, hpub, hfiles]
  · cases e <;> simp_all [analyze_pr, errClass]
  · simp [analyze_feature_description, hpub, hdesc]
  · cases e <;> simp_all [analyze_feature_description, errClass]
  · simp [analyze_repository, hpub]
  · cases e <;> simp_all [analyze_repository, errClass]

/-- C2 witness: the amended catch behaviour at a concrete public
repository, a concrete payment error and a concrete non-payment error. -/
theorem orchestrator_payment_catch_amended_witness :
    (analyze_pr ghPublic 42
        (Except.error (PyExn.paymentRequiredError ("Limit reached")))).fst =
      Except.ok limitSentinel ∧
    (analyze_pr ghPublic 42
        (Except.error (PyExn.forbiddenError ("Invalid API key")))).fst =
      Except.error (PyExn.forbiddenError ("Invalid API key")) :=
  ⟨((orchestrator_payment_catch_amended ghPublic 42 ("Limit reached")
      (PyExn.forbiddenError ("Invalid API key")) (by decide)).1 (by decide)).1,
   ((orchestrator_payment_catch_amended ghPublic 42 ("Limit reached")
      (PyExn.forbiddenError ("Invalid API key")) (by decide)).1 (by decide)).2 (by decide)⟩

/-- The request list produced by `analyze_pr`: empty on the two
short-circuits, otherwise the single built request. -/
theorem analyze_pr_snd (gh : GitHubState) (pr_number : Nat)
    (gateway : Except PyExn ApiResponse) :
    (analyze_pr gh pr_number gateway).snd =
      if gh.is_public_repo = false then []
      else if gh.pr_files.isEmpty then []
      else [{ repository := normalize_repository_url gh.repo_name
            , github_token := gh.token
            , pr_number := some pr_number
            , analysis_type := none
            , options := none }] := by
  unfold analyze_pr
  split_ifs with h1 h2
  · rfl
  · rfl
  · rcases gateway with e | r
    · cases e <;> rfl
    · rfl

/-- Prefixing with `https://github.com/` yields a string that starts with
`https://`. -/
theorem strStartsWith_github_prepend (s : String) :
    strStartsWith (("https://github.com/") ++ s) ("https://") = true := by
  have hdata : ((("https://github.com/") ++ s)).data = ("https://github.com/").data ++ s.data := by
    cases s
    rfl
  unfold strStartsWith
  rw [hdata]
  rw [List.isPrefixOf_iff_prefix]
  exact List.IsPrefix.trans
    (List.isPrefixOf_iff_prefix.mp (by decide)) (List.prefix_append _ _)

/-- C9 (confirmed): the repository URL normalization performed when
building an `AnalysisRequest` maps the bare name `owner/name` to
`https://github.com/owner/name`, leaves an already-absolute URL
unchanged, is idempotent on every string, and every request `analyze_pr`
actually submits carries the normalized repository URL. -/
theorem analysis_request_url_roundtrip :
    normalize_repository_url ("owner/name") = ("https://github.com/owner/name") ∧
    normalize_repository_url ("https://github.com/owner/name") =
      ("https://github.com/owner/name") ∧
    (∀ s : String,
      normalize_repository_url (normalize_repository_url s) = normalize_repository_url s) ∧
    (∀ (gh : GitHubState) (pr_number : Nat) (gateway : Except PyExn ApiResponse)
        (req : AnalysisRequest),
      req ∈ (analyze_pr gh pr_number gateway).snd →
        req.repository = normalize_repository_url gh.repo_name) := by
  refine ⟨by decide, by decide, ?_, ?_⟩
  · intro s
    unfold normalize_repository_url
    by_cases h : strStartsWith s ("https://") = true
    · simp [h]
    · simp only [h]
      simp [strStartsWith_github_prepend s]
  · intro gh pr_number gateway req hmem
    rw [analyze_pr_snd] at hmem
    split_ifs at hmem <;> simp at hmem
    subst hmem
    rfl

/-- C9 witness: the request-construction conjunct evaluated at a
concrete call. -/
theorem analysis_request_url_roundtrip_witness :
    ({ repository := ("https://github.com/test/repo"), github_token := ("ghp_test")
     , pr_number := some 42, analysis_type := none
     , options := none } : AnalysisRequest).repository =
      normalize_repository_url ghPublic.repo_name :=
  analysis_request_url_roundtrip.2.2.2 ghPublic 42 (Except.ok samplePayload) _ (by decide)

/-- C10 (confirmed): after the limit-reached check,
`post_analysis_comment` branches on `threat_count` alone — for every
result without the limit sentinel the no-threats document is chosen iff
`threat_count = 0`, regardless of the threats list: a zero-count result
with a non-empty threat list renders the no-threats document, a
positive-count result with an empty threat list renders the
threat-listing document, whose threat-block section is then empty. -/
theorem template_selection_threatcount :
    (∀ r : AnalysisResult, r.usage_info.limit_reached.getD false = false →
      (post_analysis_comment_template r = Template.noThreats ↔ r.threat_count = 0)) ∧
    post_analysis_comment_template resultCountZeroThreatsNonempty = Template.noThreats ∧
    post_analysis_comment_template resultCountFiveThreatsEmpty = Template.threatList ∧
    threatBlocks [] = [] := by
  refine ⟨?_, by decide, by decide, rfl⟩
  intro r h
  unfold post_analysis_comment_template
  simp [h]

/-- C10 witness: the branch equivalence evaluated at the two concrete
mismatched results. -/
theorem template_selection_threatcount_witness :
    (post_analysis_comment_template resultCountZeroThreatsNonempty = Template.noThreats ↔
      resultCountZeroThreatsNonempty.threat_count = 0) ∧
    (post_analysis_comment_template resultCountFiveThreatsEmpty = Template.noThreats ↔
      resultCountFiveThreatsEmpty.threat_count = 0) :=
  ⟨template_selection_threatcount.1 resultCountZeroThreatsNonempty (by decide),
   template_selection_threatcount.1 resultCountFiveThreatsEmpty (by decide)⟩

/-! ### Stability of the severity sort -/

/-- Inserting a threat with `orderedInsert` does not change the
rank-filtered sublists beyond prepending the element to its own rank
class: filtering by any rank commutes with the insertion. -/
theorem filter_orderedInsert_rank (t : Threat) (k : Nat) :
    ∀ l : List Threat,
      (List.orderedInsert threatLE t l).filter (fun u => rank u = k) =
        ((t :: l).filter (fun u => rank u = k)) := by
  intro l
  induction l with
  | nil => rfl
  | cons u us ih =>
    by_cases hle : threatLE t u
    · simp [List.orderedInsert, hle]
    · have hlt : rank u < rank t := Nat.lt_of_not_le hle
      rw [List.orderedInsert, if_neg hle]
      by_cases hu : rank u = k <;> by_cases ht : rank t = k
      · omega
      · simp [List.filter_cons, hu, ht, ih]
      · simp [List.filter_cons, hu, ht, ih]
      · simp [List.filter_cons, hu, ht, ih]

/-- The sort of the reporter preserves each rank class in order: Python's
stable `sorted` keeps ties in their original order. -/
theorem sortThreats_filter_rank (k : Nat) :
    ∀ l : List Threat,
      (sortThreats l).filter (fun u => rank u = k) = l.filter (fun u => rank u = k) := by
  intro l
  induction l with
  | nil => rfl
  | cons t ts ih =>
    show (List.orderedInsert threatLE t (List.insertionSort threatLE ts)).filter _ = _
    rw [filter_orderedInsert_rank]
    rw [List.filter_cons, List.filter_cons]
    unfold sortThreats at ih
    rw [ih]

/-- C5 (confirmed): the threat blocks of the threat-listing template are
rendered from `sortThreats`, which is a permutation of the input sorted
ascending by rank — critical(0) < high(1) < medium(2) < low(3) < info(4),
the severity compared case-insensitively, missing or unrecognized
severities ranking as medium(2) — and which preserves the original order
inside every rank class (stable sort). -/
theorem threat_sort_spec :
    (∀ l : List Threat, (sortThreats l).Perm l) ∧
    (∀ l : List Threat, List.Pairwise (fun a b => rank a ≤ rank b) (sortThreats l)) ∧
    (∀ (l : List Threat) (k : Nat),
      (sortThreats l).filter (fun u => rank u = k) = l.filter (fun u => rank u = k)) ∧
    threatBlocks [mkThreatSev (some ("low")), mkThreatSev (some ("critical")),
        mkThreatSev (some ("high"))] =
      threatBlocks [mkThreatSev (some ("critical")), mkThreatSev (some ("high")),
        mkThreatSev (some ("low"))] ∧
    rank (mkThreatSev (some ("CRITICAL"))) = 0 ∧
    rank (mkThreatSev (some ("High"))) = 1 ∧
    rank (mkThreatSev (some ("medium"))) = 2 ∧
    rank (mkThreatSev (some ("LOW"))) = 3 ∧
    rank (mkThreatSev (some ("Info"))) = 4 ∧
    rank (mkThreatSev none) = 2 ∧
    rank (mkThreatSev (some ("banana"))) = 2 := by
  refine ⟨fun l => List.perm_insertionSort threatLE l,
    fun l => List.sorted_insertionSort threatLE l,
    fun l k => sortThreats_filter_rank k l,
    by decide, by decide, by decide, by decide, by decide, by decide, by decide, by decide⟩

/-! ### The severity tally -/

/-- Incrementing a different key does not change a key's count. -/
theorem getCount_map_bump_ne (k' k : String) (h : k' ≠ k) :
    ∀ c : List (String × Nat),
      getCount (c.map (fun p => if p.fst = k' then (p.fst, p.snd + 1) else p)) k =
        getCount c k := by
  intro c
  induction c with
  | nil => rfl
  | cons p rest ih =>
    by_cases hpk' : p.fst = k'
    · have hp : ¬ p.fst = k := by rw [hpk']; exact h
      simp [getCount, hpk', hp, h, ih]
    · by_cases hp : p.fst = k <;> simp [getCount, hpk', hp, h, Ne.symm h, ih]

/-- Incrementing a present key bumps that key's count by one. -/
theorem getCount_map_bump_self (k : String) :
    ∀ c : List (String × Nat), (∃ p ∈ c, p.fst = k) →
      getCount (c.map (fun p => if p.fst = k then (p.fst, p.snd + 1) else p)) k =
        getCount c k + 1 := by
  intro c
  induction c with
  | nil => intro h; simp at h
  | cons p rest ih =>
    intro h
    by_cases hp : p.fst = k
    · simp [getCount, hp]
    · have hrest : ∃ q ∈ rest, q.fst = k := by
        rcases h with ⟨q, hq, hqk⟩
        rcases List.mem_cons.mp hq with hq1 | hq2
        · exact absurd (hq1 ▸ hqk) hp
        · exact ⟨q, hq2, hqk⟩
      simp [getCount, hp, ih hrest]

/-- Appending a fresh key reads as a new count of one for that key and
leaves every other key unchanged. -/
theorem getCount_append_new (k' k : String) :
    ∀ c : List (String × Nat), (∀ p ∈ c, p.fst ≠ k') →
      getCount (c ++ [(k', 1)]) k = getCount c k + (if k' = k then 1 else 0) := by
  intro c
  induction c with
  | nil =>
    intro _
    by_cases hk : k' = k <;> simp [getCount, hk]
  | cons p rest ih =>
    intro h
    have hpk' : p.fst ≠ k' := h p (List.mem_cons_self p rest)
    have hrest : ∀ q ∈ rest, q.fst ≠ k' := fun q hq => h q (List.mem_cons_of_mem p hq)
    by_cases hp : p.fst = k
    · have hk : ¬ k' = k := fun hh => hpk' (by rw [hp, hh])
      simp [getCount, hp, hk]
    · simp [getCount, hp, ih hrest]

/-- The dict update `severity_counts[k'] = severity_counts.get(k', 0) + 1`
bumps exactly the key `k'`. -/
theorem getCount_bumpCount (c : List (String × Nat)) (k' k : String) :
    getCount (bumpCount c k') k = getCount c k + (if k' = k then 1 else 0) := by
  unfold bumpCount
  by_cases hmem : c.any (fun p => p.fst = k') = true
  · rw [if_pos hmem]
    have hex : ∃ p ∈ c, p.fst = k' := by
      rcases List.any_eq_true.mp hmem with ⟨q, hq, hqk⟩
      exact ⟨q, hq, by simpa using hqk⟩
    by_cases hk : k' = k
    · subst hk
      rw [getCount_map_bump_self k' c hex]
      simp
    · rw [getCount_map_bump_ne k' k hk c]
      simp [hk]
  · rw [if_neg hmem]
    have hall : ∀ p ∈ c, p.fst ≠ k' := by
      intro p hp hc
      apply hmem
      rw [List.any_eq_true]
      exact ⟨p, hp, by simp [hc]⟩
    exact getCount_append_new k' k c hall

/-- Folding the tally over a threat list adds, for every key, the number
of threats whose severity key is that key. -/
theorem getCount_foldl_bump (k : String) :
    ∀ (l : List Threat) (c : List (String × Nat)),
      getCount (l.foldl (fun c t => bumpCount c (severityKey t)) c) k =
        getCount c k + l.countP (fun t => severityKey t = k) := by
  intro l
  induction l with
  | nil => intro c; simp
  | cons t ts ih =>
    intro c
    rw [List.foldl_cons, ih, getCount_bumpCount, List.countP_cons]
    by_cases h : severityKey t = k
    · simp [h]
      omega
    · simp [h]

/-- Every entry of the initial dict is zero. -/
theorem getCount_initCounts (k : String) : getCount initCounts k = 0 := by
  simp only [initCounts, getCount]
  split_ifs <;> rfl

/-- C6 (corrected): counterexample — a threat with the unrecognized
severity string "Bogus" leaves ALL five canonical buckets at zero (its
count lands in a freshly created, undisplayed dict key "bogus"), whereas
the claim says it should be counted toward medium. -/
theorem unrecognized_severity_counts_counterexample :
    getCount (severity_counts [mkThreatSev (some ("Bogus"))]) ("medium") = 0 ∧
    getCount (severity_counts [mkThreatSev (some ("Bogus"))]) ("critical") = 0 ∧
    getCount (severity_counts [mkThreatSev (some ("Bogus"))]) ("high") = 0 ∧
    getCount (severity_counts [mkThreatSev (some ("Bogus"))]) ("low") = 0 ∧
    getCount (severity_counts [mkThreatSev (some ("Bogus"))]) ("info") = 0 ∧
    getCount (severity_counts [mkThreatSev (some ("Bogus"))]) ("bogus") = 1 ∧
    [mkThreatSev (some ("Bogus"))].length = 1 := by
  refine ⟨by decide, by decide, by decide, by decide, by decide, by decide, by decide⟩

/-- C6 (amended): the tally increments, for each threat, exactly one
bucket of the dynamically keyed dict — the bucket named by the threat's
lower-cased severity string, with a missing severity counting toward
medium; for every key (canonical or not) the final count is the number
of threats with that severity key, so a threat with an unrecognized
severity string increments a non-canonical bucket that the summary line
never displays, leaving the five canonical counts unchanged. -/
theorem severity_tally_amended :
    (∀ (l : List Threat) (k : String),
      getCount (severity_counts l) k = l.countP (fun t => severityKey t = k)) ∧
    (∀ t : Threat, severityKey { t with severity := none } = ("medium")) := by
  constructor
  · intro l k
    unfold severity_counts
    rw [getCount_foldl_bump, getCount_initCounts]
    have hperm : (sortThreats l).Perm l := List.perm_insertionSort threatLE l
    rw [hperm.countP_eq]
    simp
  · intro t
    simp [severityKey]
    decide

/-- C7 (confirmed): the per-threat markdown block is total on its input
and every missing field renders as its defined literal fallback — a
missing title renders exactly like the literal "Unknown Threat", a
missing category like "Unknown", a missing description like
"No description provided", a missing severity like "medium" (also for
the sort rank and the tally key), a missing file like the literal
"Unknown" (both suppress the file line), and a missing line like the
empty string (both suppress the line part). -/
theorem threat_block_fallback_total :
    ∀ t : Threat,
      format_threat_block { t with title := none } =
        format_threat_block { t with title := some ("Unknown Threat") } ∧
      format_threat_block { t with category := none } =
        format_threat_block { t with category := some ("Unknown") } ∧
      format_threat_block { t with description := none } =
        format_threat_block { t with description := some ("No description provided") } ∧
      format_threat_block { t with severity := none } =
        format_threat_block { t with severity := some ("medium") } ∧
      format_threat_block { t with file := none } =
        format_threat_block { t with file := some ("Unknown") } ∧
      format_threat_block { t with line := none } =
        format_threat_block { t with line := some ("") } ∧
      rank { t with severity := none } = rank { t with severity := some ("medium") } ∧
      severityKey { t with severity := none } =
        severityKey { t with severity := some ("medium") } := by
  intro t
  refine ⟨rfl, rfl, rfl, rfl, ?_, ?_, rfl, rfl⟩
  · simp [format_threat_block]
  · simp [format_threat_block]

/-! ### Command-parsing lemmas -/

/-- The Python substring test agrees with list-infix. -/
theorem containsSeq_correct (pat : List Char) :
    ∀ l : List Char, containsSeq pat l = true ↔ pat <:+: l := by
  intro l
  induction l with
  | nil => simp [containsSeq]
  | cons c rest ih =>
    simp [containsSeq, ih, List.infix_cons_iff]

/-- A head match of the pattern `@stride-gpt\s+(\w+)` decomposes the
input into the mention, a non-empty whitespace run and the non-empty
word-character token. -/
theorem matchAt_some (l tok : List Char) (h : matchAt l = some tok) :
    ∃ ws post, l = mentionChars ++ ws ++ tok ++ post ∧ ws ≠ [] ∧
      (∀ c ∈ ws, isSpaceChar c = true) ∧ tok ≠ [] ∧ (∀ c ∈ tok, isWordChar c = true) := by
  unfold matchAt at h
  by_cases hp : mentionChars.isPrefixOf l
  case neg => simp [hp] at h
  case pos =>
    rw [if_pos hp] at h
    obtain ⟨post0, hl⟩ := List.isPrefixOf_iff_prefix.mp hp
    have hrest : l.drop mentionChars.length = post0 := by
      rw [← hl]; exact List.drop_left _ _
    rw [hrest] at h
    by_cases hws : (post0.takeWhile isSpaceChar).isEmpty
    · rw [if_pos hws] at h; exact absurd h (by simp)
    · rw [if_neg hws] at h
      by_cases htok : ((post0.dropWhile isSpaceChar).takeWhile isWordChar).isEmpty
      · rw [if_pos htok] at h; exact absurd h (by simp)
      · rw [if_neg htok] at h
        have htokeq : tok = (post0.dropWhile isSpaceChar).takeWhile isWordChar := by
          cases h; rfl
        refine ⟨post0.takeWhile isSpaceChar,
          (post0.dropWhile isSpaceChar).dropWhile isWordChar, ?_, ?_, ?_, ?_, ?_⟩
        · rw [← hl, htokeq]
          have h1 : post0 = post0.takeWhile isSpaceChar ++ post0.dropWhile isSpaceChar :=
            (List.takeWhile_append_dropWhile _ _).symm
          have h2 : post0.dropWhile isSpaceChar =
              (post0.dropWhile isSpaceChar).takeWhile isWordChar ++
                (post0.dropWhile isSpaceChar).dropWhile isWordChar :=
            (List.takeWhile_append_dropWhile _ _).symm
          conv_lhs => rw [h1, h2]
          simp [List.append_assoc]
        · simpa using hws
        · intro c hc; exact List.mem_takeWhile_imp hc
        · rw [htokeq]; simpa using htok
        · intro c hc; rw [htokeq] at hc; exact List.mem_takeWhile_imp hc

/-- A successful search yields a genuine occurrence of the pattern. -/
theorem searchTok_some (tok : List Char) :
    ∀ l : List Char, searchTok l = some tok → hasCmdPatternWith l tok := by
  intro l
  induction l with
  | nil => intro h; simp [searchTok] at h
  | cons c rest ih =>
    intro h
    rw [searchTok] at h
    cases hm : matchAt (c :: rest) with
    | some t =>
      rw [hm] at h
      cases h
      obtain ⟨ws, post, hsplit, hws, hwsall, htok, htokall⟩ := matchAt_some _ _ hm
      exact ⟨[], ws, post, by simpa using hsplit, hws, hwsall, htok, htokall⟩
    | none =>
      rw [hm] at h
      obtain ⟨pre, ws, post, hsplit, hws, hwsall, htok, htokall⟩ := ih h
      exact ⟨c :: pre, ws, post, by simp [hsplit], hws, hwsall, htok, htokall⟩

/-- A pattern occurrence contains the mention as a substring. -/
theorem hasCmdPattern_contains (l tok : List Char) (h : hasCmdPatternWith l tok) :
    containsSeq mentionChars l = true := by
  obtain ⟨pre, ws, post, hsplit, _⟩ := h
  rw [containsSeq_correct]
  exact ⟨pre, ws ++ tok ++ post, by rw [hsplit]; simp [List.append_assoc]⟩

/-- Lower-casing preserves containment of the (already lower-case)
mention. -/
theorem containsSeq_map_toLower (l : List Char)
    (h : containsSeq mentionChars l = true) :
    containsSeq mentionChars (l.map Char.toLower) = true := by
  rw [containsSeq_correct] at h ⊢
  have h2 := h.map Char.toLower
  have hm : mentionChars.map Char.toLower = mentionChars := by decide
  rwa [hm] at h2

/-- C8 (corrected): counterexample — the body `"@STRIDE-GPT"` contains
the mention (case-insensitively, as the pattern search itself matches
it) with no following token, yet `parse_command` returns `None` rather
than the claimed `"analyze"`: the no-token fallback checks for the
literal lower-case mention only. -/
theorem uppercase_mention_no_command_counterexample :
    containsMentionCI ("@STRIDE-GPT") = true ∧
    parse_command ("@STRIDE-GPT") = none ∧
    (none : Option String) ≠ some ("analyze") := by
  refine ⟨by decide, by decide, by decide⟩

/-- C8 (amended): if the lower-cased body matches
`@stride-gpt\s+(\w+)`, the command is the captured token (an actual
occurrence of mention + whitespace + word-token in the lowered body);
if the pattern does not match but the body contains the LITERAL
lower-case mention `@stride-gpt` (a case-sensitive check), the command is
`analyze`; if the mention is absent even case-insensitively, the result
is no command — so a capitalized mention with no following token yields
no command, not `analyze`. -/
theorem parse_command_amended :
    (∀ body : String, containsMentionCI body = false → parse_command body = none) ∧
    (∀ (body : String) (tok : List Char),
      searchTok (body.data.map Char.toLower) = some tok →
        parse_command body = some (String.mk tok) ∧
        hasCmdPatternWith (body.data.map Char.toLower) tok) ∧
    (∀ body : String, searchTok (body.data.map Char.toLower) = none →
      containsSeq mentionChars body.data = true →
        parse_command body = some ("analyze")) ∧
    parse_command ("@stride-gpt") = some ("analyze") ∧
    parse_command ("@STRIDE-GPT HELP") = some ("help") := by
  refine ⟨?_, ?_, ?_, by decide, by decide⟩
  · intro body h
    unfold parse_command
    cases hs : searchTok (body.data.map Char.toLower) with
    | some tok =>
      exfalso
      have hpat := searchTok_some tok _ hs
      have hcon := hasCmdPattern_contains _ tok hpat
      rw [containsMentionCI] at h
      rw [h] at hcon
      exact Bool.false_ne_true hcon
    | none =>
      have hlit : containsSeq mentionChars body.data = false := by
        cases hcb : containsSeq mentionChars body.data with
        | false => rfl
        | true =>
          exfalso
          have := containsSeq_map_toLower body.data hcb
          rw [containsMentionCI] at h
          rw [h] at this
          exact Bool.false_ne_true this
      simp [hlit]
  · intro body tok hs
    refine ⟨?_, searchTok_some tok _ hs⟩
    unfold parse_command
    rw [hs]
  · intro body hs hlit
    unfold parse_command
    rw [hs, hlit]
    simp

/-- C8 witness: the amended branches evaluated at concrete bodies. -/
theorem parse_command_amended_witness :
    parse_command ("This is just a regular comment") = none ∧
    parse_command ("Please @stride-gpt analyze this PR") = some (String.mk (("analyze").data)) ∧
    parse_command ("Hey @stride-gpt, can you check this") = some ("analyze") :=
  ⟨parse_command_amended.1 ("This is just a regular comment") (by decide),
   (parse_command_amended.2.1 ("Please @stride-gpt analyze this PR")
      (("analyze").data) (by decide)).1,
   parse_command_amended.2.2.1 ("Hey @stride-gpt, can you check this")
      (by decide) (by decide)⟩

end StrideAction
